import Mathlib

/-!
Shallow embedding of `src/server.js`, a small MCP-over-SSE server.

The server keeps a registry `sessions : Map sessionId => { sseRes, initialized }`
(the flag is called `initDone` here), populated by `GET /sse-cursor` and torn down
on stream disconnect.  `POST /message?sessionId=...` validates a JSON-RPC 2.0
envelope, answers with a synchronous JSON body, and then performs zero or more
asynchronous SSE writes on the session's stream, switching on `rpc.method`.

The handler is modelled as a pure function from the registry, the optional
`sessionId` query parameter and the optional request body to an ordered trace
of output actions (the synchronous `res.json`/`res.status(..).json` response,
followed by the `sseRes.write` events in program order) together with the
updated registry.
-/

namespace McpServer

/-- A JSON scalar used as a JSON-RPC correlation id (`rpc.id` can be any JSON
value; ids in this development are scalars, which is all the server ever
inspects — it only echoes them verbatim). `Option JVal` models a field that may
be absent (JS `undefined`, omitted by `JSON.stringify`); `JVal.null` is JSON
`null`. -/
inductive JVal where
  | null : JVal
  | str : String → JVal
  | num : Int → JVal
  | bool : Bool → JVal
deriving DecidableEq

/-- One registry entry: `{ sseRes, initialized }` from `sessions.set(sessionId,
{ sseRes: res, initialized: false })`.  The stream handle is an opaque token
(`Nat`); `Option` reflects that the code guards `if (!sseRes)` before writing.
The `initialized` flag is named `initDone`. -/
structure SessionData where
  sseRes : Option Nat
  initDone : Bool
deriving DecidableEq

/-- The session registry `const sessions = new Map()`, keyed by session id. -/
abbrev Registry := List (String × SessionData)

/-- `sessions.get(sessionId)`. -/
def lookup : Registry → String → Option SessionData
  | [], _ => none
  | (k, v) :: rest, sid => if k = sid then some v else lookup rest sid

/-- `sessions.set(sessionId, { sseRes: res, initialized: false })` in the
`GET /sse-cursor` handler: a fresh session starts with the flag down. -/
def openSession (reg : Registry) (sid : String) (stream : Nat) : Registry :=
  (sid, { sseRes := some stream, initDone := false }) :: reg

/-- `sessions.delete(sessionId)` in the stream's `req.on("close")` cleanup. -/
def closeSession (reg : Registry) (sid : String) : Registry :=
  reg.filter (fun p => p.1 != sid)

/-- `sessionData.initialized = true`: the in-place mutation of the object held
in the map, seen from the registry as updating the entry for that key. -/
def markInit (reg : Registry) (sid : String) : Registry :=
  reg.map (fun p => if p.1 = sid then (p.1, { p.2 with initDone := true }) else p)

/-- `rpc.params.arguments` for the arithmetic tool: `{ a:..., b:... }`, each
field possibly absent. JS numbers are modelled as `Int` (every value the server
arithmetic is specified on is integral). -/
structure ToolArgs where
  a : Option Int
  b : Option Int
deriving DecidableEq

/-- `rpc.params` for `tools/call`: `{ name: ..., arguments: {...} }`. -/
structure RpcParams where
  name : Option String
  arguments : Option ToolArgs
deriving DecidableEq

/-- An inbound JSON-RPC envelope `req.body`; each field may be absent. -/
structure Rpc where
  jsonrpc : Option String
  id : Option JVal
  method : Option String
  params : Option RpcParams
deriving DecidableEq

/-- JS truthiness of `rpc.method` (a string field): `undefined` and `""` are
falsy, so `!rpc.method` rejects both. -/
def methodTruthy : Option String → Bool
  | none => false
  | some s => s != ""

/-- The rejection condition `rpc.jsonrpc !== "2.0" || !rpc.method` for a
present body (the `!rpc` disjunct is the `none` case of the body itself). -/
def rpcRejected (rpc : Rpc) : Bool :=
  rpc.jsonrpc != some "2.0" || !(methodTruthy rpc.method)

/-- `rpc?.id ?? null`: the correlation id placed in the synchronous `-32600`
error — `null` when the body or its `id` is absent, the id's value otherwise
(`?? null` maps JSON `null` to `null`, i.e. is the identity on present ids). -/
def idOrNull : Option Rpc → JVal
  | none => JVal.null
  | some rpc =>
    match rpc.id with
    | none => JVal.null
    | some v => v

/-- JS template-literal rendering of a possibly-absent string
(`${toolName}` prints `undefined` when the field is missing). -/
def jsStr : Option String → String
  | none => "undefined"
  | some s => s

/-- JS template-literal rendering of a possibly-absent number. -/
def jsNum : Option Int → String
  | none => "undefined"
  | some n => toString n

/-- `x || 0` on a possibly-absent number: absent (and `0` itself, which JS
treats as falsy — the result is the same `0`) defaults to `0`. -/
def orZero : Option Int → Int
  | none => 0
  | some n => n

/-- `serverInfo` of the `initialize` capabilities result. -/
structure ServerInfo where
  name : String
  version : String
deriving DecidableEq

/-- The fixed `capabilities` object of the `initialize` result (the empty
`logging: {}` member carries no data and is not represented). -/
structure Capabilities where
  toolsListChanged : Bool
  resourcesSubscribe : Bool
  resourcesListChanged : Bool
  promptsListChanged : Bool
deriving DecidableEq

/-- The `result` payload of the `initialize` capabilities message. -/
structure InitResult where
  protocolVersion : String
  capabilities : Capabilities
  serverInfo : ServerInfo
deriving DecidableEq

/-- One tool descriptor of the `tools/list` result: name, description and the
`inputSchema` object (type, `properties` as name/type pairs, `required`). -/
structure ToolDescriptor where
  name : String
  description : String
  schemaType : String
  schemaProperties : List (String × String)
  schemaRequired : List String
deriving DecidableEq

/-- One element of a `tools/call` result's `content` array. -/
structure ContentBlock where
  type : String
  text : String
deriving DecidableEq

/-- The `result` member of an asynchronous JSON-RPC message. -/
inductive RpcResult where
  | initCaps : InitResult → RpcResult
  | toolsList : List ToolDescriptor → Nat → RpcResult
  | callContent : List ContentBlock → RpcResult
deriving DecidableEq

/-- The `error` member `{ code, message }` of a JSON-RPC message. -/
structure RpcError where
  code : Int
  message : String
deriving DecidableEq

/-- One JSON object written as the `data:` line of an SSE event: `jsonrpc`,
the echoed `id` (absent when the envelope's id was absent, since
`JSON.stringify` omits `undefined` fields), and either `result` or `error`. -/
structure SseMessage where
  jsonrpc : String
  id : Option JVal
  result : Option RpcResult
  error : Option RpcError
deriving DecidableEq

/-- The synchronous reply of one `POST /message` exchange:
`res.status(400).json({error})` / `res.status(404).json({error})` for a
missing or unknown session id, the status-200 `-32600` body (whose `id` field
is always present, `null` standing in for an absent envelope id), or the
status-200 ack `{ jsonrpc, id, result: { ack } }`. -/
inductive SyncResponse where
  | httpError : Nat → String → SyncResponse
  | invalidRequest : JVal → Int → String → SyncResponse
  | ack : Option JVal → String → SyncResponse
deriving DecidableEq

/-- One output of the handler, in program order: the synchronous response or
one SSE event (`event:` name plus `data:` JSON). -/
inductive Action where
  | sync : SyncResponse → Action
  | sse : String → SseMessage → Action
deriving DecidableEq

/-- The `initCaps` literal of the `initialize` case (`id: rpc.id`). -/
def initCapsMsg (id : Option JVal) : SseMessage :=
  { jsonrpc := "2.0"
    id := id
    result := some (RpcResult.initCaps
      { protocolVersion := "2024-11-05"
        capabilities :=
          { toolsListChanged := true
            resourcesSubscribe := true
            resourcesListChanged := true
            promptsListChanged := true }
        serverInfo :=
          { name := "final-capabilities-server"
            version := "1.0.0" } })
    error := none }

/-- The single registered tool descriptor of the `tools/list` literal. -/
def addNumbersDescriptor : ToolDescriptor :=
  { name := "addNumbersTool"
    description := "Adds two numbers \x27a\x27 and \x27b\x27 and returns their sum."
    schemaType := "object"
    schemaProperties := [("a", "number"), ("b", "number")]
    schemaRequired := ["a", "b"] }

/-- The `toolsMsg` literal of the `tools/list` case. -/
def toolsListMsg (id : Option JVal) : SseMessage :=
  { jsonrpc := "2.0"
    id := id
    result := some (RpcResult.toolsList [addNumbersDescriptor] 1)
    error := none }

/-- The text of the `addNumbersTool` result:
`Sum of ${args.a} + ${args.b} = ${sum}` with `sum = (args.a||0)+(args.b||0)`. -/
def sumText (a b : Option Int) : String :=
  "Sum of " ++ jsNum a ++ " + " ++ jsNum b ++ " = " ++ toString (orZero a + orZero b)

/-- The `callMsg` literal of the `addNumbersTool` branch. -/
def callResultMsg (id : Option JVal) (a b : Option Int) : SseMessage :=
  { jsonrpc := "2.0"
    id := id
    result := some (RpcResult.callContent [{ type := "text", text := sumText a b }])
    error := none }

/-- The `callErr` literal of the unknown-tool branch:
code `-32601`, message `No such tool '${toolName}'`. -/
def unknownToolMsg (id : Option JVal) (toolName : Option String) : SseMessage :=
  { jsonrpc := "2.0"
    id := id
    result := none
    error := some { code := -32601, message := "No such tool \x27" ++ jsStr toolName ++ "\x27" } }

/-- The `errObj` literal of the `default` branch:
code `-32601`, message `Method '${rpc.method}' not recognized`. -/
def unknownMethodMsg (id : Option JVal) (m : String) : SseMessage :=
  { jsonrpc := "2.0"
    id := id
    result := none
    error := some { code := -32601, message := "Method \x27" ++ m ++ "\x27 not recognized" } }

/-- `rpc.params?.name`. -/
def toolNameOf (rpc : Rpc) : Option String :=
  match rpc.params with
  | none => none
  | some p => p.name

/-- `rpc.params?.arguments || {}` (the empty object has both fields absent). -/
def toolArgsOf (rpc : Rpc) : ToolArgs :=
  match rpc.params with
  | none => { a := none, b := none }
  | some p =>
    match p.arguments with
    | none => { a := none, b := none }
    | some args => args

/-- The `switch (rpc.method)` dispatch, entered only after the synchronous ack
and the `if (!sseRes)` guard.  `m` is the JS rendering of `rpc.method`
(validation guarantees a non-empty string here).  Returns the SSE writes of
that call in order, and the registry afterwards (only `initialize` mutates
it, via `sessionData.initialized = true`). -/
def dispatch (reg : Registry) (sid : String) (rpc : Rpc) (m : String) :
    List Action × Registry :=
  if m = "initialize" then
    ([Action.sse "message" (initCapsMsg rpc.id)], markInit reg sid)
  else if m = "tools/list" then
    ([Action.sse "message" (toolsListMsg rpc.id)], reg)
  else if m = "tools/call" then
    (if toolNameOf rpc = some "addNumbersTool" then
      [Action.sse "message" (callResultMsg rpc.id (toolArgsOf rpc).a (toolArgsOf rpc).b)]
    else
      [Action.sse "message" (unknownToolMsg rpc.id (toolNameOf rpc))], reg)
  else if m = "notifications/initialized" then
    ([], reg)
  else
    ([Action.sse "message" (unknownMethodMsg rpc.id m)], reg)

/-- The outputs of one `POST /message` call and the resulting registry. -/
structure HandleResult where
  trace : List Action
  sessions : Registry
deriving DecidableEq

/-- The `app.post("/message")` handler: session-id checks, envelope
validation, synchronous ack, `if (!sseRes)` guard, then method dispatch.
`sessionId` is the `?sessionId=` query parameter, `body` the parsed JSON
body. -/
def handleMessage (reg : Registry) (sessionId : Option String) (body : Option Rpc) :
    HandleResult :=
  match sessionId with
  | none =>
    { trace := [Action.sync (SyncResponse.httpError 400 "Missing sessionId in ?sessionId=...")]
      sessions := reg }
  | some sid =>
    match lookup reg sid with
    | none =>
      { trace := [Action.sync (SyncResponse.httpError 404 "No SSE session with that sessionId")]
        sessions := reg }
    | some sessionData =>
      match body with
      | none =>
        { trace := [Action.sync
            (SyncResponse.invalidRequest (idOrNull none) (-32600) "Invalid JSON-RPC request")]
          sessions := reg }
      | some rpc =>
        if rpcRejected rpc then
          { trace := [Action.sync
              (SyncResponse.invalidRequest (idOrNull (some rpc)) (-32600) "Invalid JSON-RPC request")]
            sessions := reg }
        else
          let ackAct : Action :=
            Action.sync (SyncResponse.ack rpc.id ("Received " ++ jsStr rpc.method))
          match sessionData.sseRes with
          | none => { trace := [ackAct], sessions := reg }
          | some _ =>
            let d := dispatch reg sid rpc (jsStr rpc.method)
            { trace := ackAct :: d.1, sessions := d.2 }

/-- Projection of an action to its synchronous response, if it is one. -/
def syncProj : Action → Option SyncResponse
  | Action.sync s => some s
  | Action.sse _ _ => none

/-- Projection of an action to its SSE message, if it is one. -/
def sseProj : Action → Option SseMessage
  | Action.sync _ => none
  | Action.sse _ msg => some msg

/-- The synchronous responses of a trace, in order. -/
def HandleResult.syncResponses (r : HandleResult) : List SyncResponse :=
  r.trace.filterMap syncProj

/-- The asynchronous SSE messages of a trace, in order. -/
def HandleResult.sseWrites (r : HandleResult) : List SseMessage :=
  r.trace.filterMap sseProj

/-- The composite rejection condition `!rpc || rpc.jsonrpc !== "2.0" ||
!rpc.method` of the validation branch, on the optional body. -/
def bodyRejected : Option Rpc → Bool
  | none => true
  | some rpc => rpcRejected rpc

/-- A concrete registry with one open session, used to instantiate the
theorems at concrete inputs. -/
def regW : Registry := [("s1", { sseRes := some 0, initDone := false })]

/-- The same concrete registry with the session's `initialized` flag up. -/
def regW2 : Registry := [("s1", { sseRes := some 0, initDone := true })]

/-- A concrete `initialize` envelope. -/
def rpcInitW : Rpc :=
  { jsonrpc := some "2.0", id := some (JVal.num 7), method := some "initialize", params := none }

/-- A concrete `tools/list` envelope. -/
def rpcListW : Rpc :=
  { jsonrpc := some "2.0", id := some (JVal.str "x"), method := some "tools/list", params := none }

/-- A concrete `tools/call` envelope naming an unregistered tool. -/
def rpcCallUnknownW : Rpc :=
  { jsonrpc := some "2.0", id := some (JVal.num 3), method := some "tools/call"
    params := some { name := some "doesNotExist", arguments := none } }

/-- A concrete `tools/call` envelope for `addNumbersTool` with `{a: 2, b: 3}`. -/
def rpcCallAddW : Rpc :=
  { jsonrpc := some "2.0", id := some (JVal.num 4), method := some "tools/call"
    params := some { name := some "addNumbersTool"
                     arguments := some { a := some 2, b := some 3 } } }

/-- A concrete malformed envelope (its `method` field is absent). -/
def rpcBadW : Rpc :=
  { jsonrpc := some "2.0", id := some (JVal.num 9), method := none, params := none }

/-- Registry contents with the `initialized` flag erased: session ids and
their stream handles only. -/
def stripInit (reg : Registry) : List (String × Option Nat) :=
  reg.map (fun p => (p.1, p.2.sseRes))

/-! ## Registry lemmas -/

theorem markInit_cons (k : String) (v : SessionData) (rest : Registry) (sid : String) :
    markInit ((k, v) :: rest) sid
      = (if k = sid then (k, { v with initDone := true }) else (k, v)) :: markInit rest sid := by
  by_cases h : k = sid <;> simp [markInit, h]

theorem closeSession_cons (k : String) (v : SessionData) (rest : Registry) (sid : String) :
    closeSession ((k, v) :: rest) sid
      = if k = sid then closeSession rest sid else (k, v) :: closeSession rest sid := by
  by_cases h : k = sid <;> simp [closeSession, h]

theorem lookup_markInit_self (reg : Registry) (sid : String) :
    lookup (markInit reg sid) sid
      = (lookup reg sid).map (fun sd => { sd with initDone := true }) := by
  induction reg with
  | nil => rfl
  | cons p rest ih =>
    obtain ⟨k, v⟩ := p
    rw [markInit_cons]
    by_cases h : k = sid
    · subst h
      rw [if_pos rfl]
      simp [lookup]
    · rw [if_neg h]
      simp [lookup, h, ih]

theorem lookup_markInit_ne (reg : Registry) (sid k : String) (h : k ≠ sid) :
    lookup (markInit reg sid) k = lookup reg k := by
  induction reg with
  | nil => rfl
  | cons p rest ih =>
    obtain ⟨k', v⟩ := p
    rw [markInit_cons]
    by_cases h' : k' = sid
    · subst h'
      rw [if_pos rfl]
      have hk : k' ≠ k := fun hkk => h hkk.symm
      simp [lookup, hk, ih]
    · rw [if_neg h']
      by_cases h2 : k' = k <;> simp [lookup, h', h2, ih]

theorem markInit_markInit (reg : Registry) (sid : String) :
    markInit (markInit reg sid) sid = markInit reg sid := by
  induction reg with
  | nil => rfl
  | cons p rest ih =>
    obtain ⟨k, v⟩ := p
    rw [markInit_cons]
    by_cases h : k = sid
    · subst h
      rw [if_pos rfl, markInit_cons, if_pos rfl]
      simp [ih]
    · rw [if_neg h, markInit_cons, if_neg h]
      simp [ih]

theorem lookup_closeSession_self (reg : Registry) (sid : String) :
    lookup (closeSession reg sid) sid = none := by
  induction reg with
  | nil => rfl
  | cons p rest ih =>
    obtain ⟨k, v⟩ := p
    rw [closeSession_cons]
    by_cases h : k = sid
    · rw [if_pos h]
      exact ih
    · rw [if_neg h]
      simp [lookup, h, ih]

theorem stripInit_markInit (reg : Registry) (sid : String) :
    stripInit (markInit reg sid) = stripInit reg := by
  induction reg with
  | nil => rfl
  | cons p rest ih =>
    obtain ⟨k, v⟩ := p
    rw [markInit_cons]
    by_cases h : k = sid
    · rw [if_pos h]
      simp [stripInit] at ih ⊢
      exact ih
    · rw [if_neg h]
      simp [stripInit] at ih ⊢
      exact ih

/-! ## Dispatch lemmas -/

theorem dispatch_sse_shape (reg : Registry) (sid : String) (rpc : Rpc) (m : String)
    (a : Action) (ha : a ∈ (dispatch reg sid rpc m).1) :
    ∃ msg, a = Action.sse "message" msg ∧ msg.id = rpc.id := by
  unfold dispatch at ha
  repeat' split at ha
  all_goals
    simp only [List.mem_singleton, List.not_mem_nil] at ha
  all_goals
    first
    | exact absurd ha (by simp)
    | (subst ha; exact ⟨_, rfl, rfl⟩)

theorem dispatch_sessions (reg : Registry) (sid : String) (rpc : Rpc) (m : String) :
    (dispatch reg sid rpc m).2 = reg ∨
      (m = "initialize" ∧ (dispatch reg sid rpc m).2 = markInit reg sid) := by
  unfold dispatch
  repeat' split
  all_goals simp_all

theorem dispatch_no_sync (reg : Registry) (sid : String) (rpc : Rpc) (m : String) :
    ((dispatch reg sid rpc m).1).filterMap syncProj = [] := by
  unfold dispatch
  repeat' split
  all_goals simp [syncProj]

theorem dispatch_all_sse (reg : Registry) (sid : String) (rpc : Rpc) (m : String) :
    ∃ ws : List SseMessage,
      (dispatch reg sid rpc m).1 = ws.map (Action.sse "message") := by
  unfold dispatch
  repeat' split
  all_goals first
    | exact ⟨[], rfl⟩
    | exact ⟨[_], rfl⟩

/-! ## Claim theorems -/

/-- C1: every asynchronous SSE event the call-submission handler writes for an
envelope — the `initialize` capabilities result, the `tools/list` result, the
`tools/call` result or error, and the unknown-method error — carries an `id`
equal to the triggering envelope's `id`, with no defaulting or regeneration. -/
theorem c1_async_id_echoes_envelope (reg : Registry) (sessionId : Option String)
    (rpc : Rpc) (msg : SseMessage)
    (hmem : msg ∈ (handleMessage reg sessionId (some rpc)).sseWrites) :
    msg.id = rpc.id := by
  cases sessionId with
  | none => simp [handleMessage, HandleResult.sseWrites, sseProj] at hmem
  | some sid =>
    cases hl : lookup reg sid with
    | none => simp [handleMessage, hl, HandleResult.sseWrites, sseProj] at hmem
    | some sd =>
      by_cases hr : rpcRejected rpc = true
      · simp [handleMessage, hl, hr, HandleResult.sseWrites, sseProj] at hmem
      · cases hs : sd.sseRes with
        | none => simp [handleMessage, hl, hr, hs, HandleResult.sseWrites, sseProj] at hmem
        | some st =>
          have hmem' : msg ∈
              ((dispatch reg sid rpc (jsStr rpc.method)).1).filterMap sseProj := by
            simpa [handleMessage, hl, hr, hs, HandleResult.sseWrites, sseProj] using hmem
          obtain ⟨a, ha, hfa⟩ := List.mem_filterMap.mp hmem'
          obtain ⟨msg', hae, hid⟩ := dispatch_sse_shape reg sid rpc (jsStr rpc.method) a ha
          subst hae
          simp [sseProj] at hfa
          exact hfa ▸ hid

/-- Witness for C1 at a concrete input: an `initialize` call against a
registered session writes the capabilities message, whose id is the
envelope's. -/
theorem c1_witness : (initCapsMsg (some (JVal.num 7))).id = rpcInitW.id :=
  c1_async_id_echoes_envelope regW (some "s1") rpcInitW (initCapsMsg (some (JVal.num 7)))
    (by decide)

/-- C2: for every valid envelope against a registered session, the synchronous
HTTP acknowledgment is the single success body `{ jsonrpc, id, result: { ack } }`
whose `id` equals the envelope's `id`. -/
theorem c2_sync_ack_id (reg : Registry) (sid : String) (sd : SessionData) (rpc : Rpc)
    (hl : lookup reg sid = some sd) (hv : rpcRejected rpc = false) :
    (handleMessage reg (some sid) (some rpc)).syncResponses
      = [SyncResponse.ack rpc.id ("Received " ++ jsStr rpc.method)] := by
  cases hs : sd.sseRes with
  | none => simp [handleMessage, hl, hv, hs, HandleResult.syncResponses, syncProj]
  | some st =>
    simp [handleMessage, hl, hv, hs, HandleResult.syncResponses, syncProj,
      dispatch_no_sync]

/-- Witness for C2 at a concrete input: a `tools/list` call. -/
theorem c2_witness :
    (handleMessage regW (some "s1") (some rpcListW)).syncResponses
      = [SyncResponse.ack rpcListW.id ("Received " ++ jsStr rpcListW.method)] :=
  c2_sync_ack_id regW "s1" { sseRes := some 0, initDone := false } rpcListW
    (by decide) (by decide)

/-- C3: a malformed envelope (absent body, wrong or missing protocol tag, or
absent method) against a registered session yields exactly one synchronous
`-32600` error whose id is the envelope's id when present and `null` otherwise
(the field is never omitted), and no asynchronous write. -/
theorem c3_malformed_sync_error (reg : Registry) (sid : String) (sd : SessionData)
    (body : Option Rpc) (hl : lookup reg sid = some sd) (hm : bodyRejected body = true) :
    (handleMessage reg (some sid) body).trace
      = [Action.sync (SyncResponse.invalidRequest (idOrNull body) (-32600)
          "Invalid JSON-RPC request")]
    ∧ (handleMessage reg (some sid) body).sseWrites = []
    ∧ (body = none → idOrNull body = JVal.null)
    ∧ (∀ rpc, body = some rpc → rpc.id = none → idOrNull body = JVal.null)
    ∧ (∀ rpc v, body = some rpc → rpc.id = some v → idOrNull body = v) := by
  cases body with
  | none =>
    refine ⟨?_, ?_, ?_, ?_, ?_⟩
    · simp [handleMessage, hl]
    · simp [handleMessage, hl, HandleResult.sseWrites, sseProj]
    · intro _
      rfl
    · intro rpc h
      exact absurd h (by simp)
    · intro rpc v h
      exact absurd h (by simp)
  | some rpc =>
    have hr : rpcRejected rpc = true := hm
    refine ⟨?_, ?_, ?_, ?_, ?_⟩
    · simp [handleMessage, hl, hr]
    · simp [handleMessage, hl, hr, HandleResult.sseWrites, sseProj]
    · intro h
      exact absurd h (by simp)
    · intro rpc' h hid
      cases h
      simp [idOrNull, hid]
    · intro rpc' v h hid
      cases h
      simp [idOrNull, hid]

/-- Witness for C3 at a concrete input: an envelope whose `method` is absent
gets the synchronous `-32600` error carrying its id, and no SSE write. -/
theorem c3_witness :
    (handleMessage regW (some "s1") (some rpcBadW)).trace
      = [Action.sync (SyncResponse.invalidRequest (idOrNull (some rpcBadW)) (-32600)
          "Invalid JSON-RPC request")]
    ∧ (handleMessage regW (some "s1") (some rpcBadW)).sseWrites = [] := by
  have h := c3_malformed_sync_error regW "s1" { sseRes := some 0, initDone := false }
    (some rpcBadW) (by decide) (by decide)
  exact ⟨h.1, h.2.1⟩

/-- C4: a valid `tools/call` whose target name is not the registered
`addNumbersTool` first gets the normal synchronous success ack and then a
single asynchronous `-32601` error on the session's stream whose message
contains the unresolved target name; it is not a synchronous rejection. -/
theorem c4_unknown_tool_async_error (reg : Registry) (sid : String) (sd : SessionData)
    (st : Nat) (rpc : Rpc) (nm : String)
    (hl : lookup reg sid = some sd) (hs : sd.sseRes = some st)
    (hjr : rpc.jsonrpc = some "2.0") (hm : rpc.method = some "tools/call")
    (hname : toolNameOf rpc = some nm) (hne : nm ≠ "addNumbersTool") :
    (handleMessage reg (some sid) (some rpc)).trace
      = [Action.sync (SyncResponse.ack rpc.id "Received tools/call"),
         Action.sse "message" (unknownToolMsg rpc.id (some nm))]
    ∧ (unknownToolMsg rpc.id (some nm)).error
        = some { code := -32601, message := "No such tool \x27" ++ nm ++ "\x27" }
    ∧ ∃ before after, "No such tool \x27" ++ nm ++ "\x27" = before ++ nm ++ after := by
  have hv : rpcRejected rpc = false := by
    simp [rpcRejected, hjr, hm, methodTruthy]
  have hms : jsStr rpc.method = "tools/call" := by
    rw [hm]
    rfl
  refine ⟨?_, rfl, "No such tool \x27", "\x27", rfl⟩
  simp [handleMessage, hl, hv, hs, hms, dispatch, hname, hne]

/-- Witness for C4 at a concrete input: calling `doesNotExist`. -/
theorem c4_witness :
    (handleMessage regW (some "s1") (some rpcCallUnknownW)).trace
      = [Action.sync (SyncResponse.ack rpcCallUnknownW.id "Received tools/call"),
         Action.sse "message" (unknownToolMsg rpcCallUnknownW.id (some "doesNotExist"))] :=
  (c4_unknown_tool_async_error regW "s1" { sseRes := some 0, initDone := false } 0
    rpcCallUnknownW "doesNotExist" (by decide) rfl rfl rfl rfl (by decide)).1

/-- C5: a valid `tools/call` naming `addNumbersTool` writes one asynchronous
textual content block reporting the sum of `a` and `b`; each missing argument
independently defaults to `0` instead of the call being rejected, and with
`{a: 2, b: 3}` the text reports `5`. -/
theorem c5_add_numbers (reg : Registry) (sid : String) (sd : SessionData)
    (st : Nat) (rpc : Rpc)
    (hl : lookup reg sid = some sd) (hs : sd.sseRes = some st)
    (hjr : rpc.jsonrpc = some "2.0") (hm : rpc.method = some "tools/call")
    (hname : toolNameOf rpc = some "addNumbersTool") :
    (handleMessage reg (some sid) (some rpc)).sseWrites
      = [callResultMsg rpc.id (toolArgsOf rpc).a (toolArgsOf rpc).b]
    ∧ (callResultMsg rpc.id (toolArgsOf rpc).a (toolArgsOf rpc).b).result
        = some (RpcResult.callContent
            [{ type := "text", text := sumText (toolArgsOf rpc).a (toolArgsOf rpc).b }])
    ∧ (∀ ob : Option Int, orZero none + orZero ob = 0 + orZero ob)
    ∧ (∀ oa : Option Int, orZero oa + orZero none = orZero oa + 0)
    ∧ sumText (some 2) (some 3) = "Sum of 2 + 3 = 5" := by
  have hv : rpcRejected rpc = false := by
    simp [rpcRejected, hjr, hm, methodTruthy]
  have hms : jsStr rpc.method = "tools/call" := by
    rw [hm]
    rfl
  refine ⟨?_, rfl, fun ob => rfl, fun oa => rfl, by decide⟩
  simp [handleMessage, hl, hv, hs, hms, dispatch, hname,
    HandleResult.sseWrites, sseProj]

/-- Witness for C5 at a concrete input: `{a: 2, b: 3}` yields the sum text `5`. -/
theorem c5_witness :
    (handleMessage regW (some "s1") (some rpcCallAddW)).sseWrites
      = [callResultMsg rpcCallAddW.id (some 2) (some 3)]
    ∧ sumText (some 2) (some 3) = "Sum of 2 + 3 = 5" := by
  have h := c5_add_numbers regW "s1" { sseRes := some 0, initDone := false } 0 rpcCallAddW
    (by decide) rfl rfl rfl rfl
  exact ⟨h.1, h.2.2.2.2⟩

/-- C6: a call with no session-id parameter gets the synchronous 400-style
error; a call whose session id is not registered gets the synchronous 404-style
error and no asynchronous write; and a disconnected stream's session is removed
from the registry, so every subsequent call with its id takes the 404 path. -/
theorem c6_session_errors :
    (∀ (reg : Registry) (body : Option Rpc),
      (handleMessage reg none body).trace
        = [Action.sync (SyncResponse.httpError 400 "Missing sessionId in ?sessionId=...")])
    ∧ (∀ (reg : Registry) (sid : String) (body : Option Rpc), lookup reg sid = none →
        (handleMessage reg (some sid) body).trace
          = [Action.sync (SyncResponse.httpError 404 "No SSE session with that sessionId")]
        ∧ (handleMessage reg (some sid) body).sseWrites = [])
    ∧ (∀ (reg : Registry) (sid : String), lookup (closeSession reg sid) sid = none)
    ∧ (∀ (reg : Registry) (sid : String) (body : Option Rpc),
        (handleMessage (closeSession reg sid) (some sid) body).trace
          = [Action.sync (SyncResponse.httpError 404 "No SSE session with that sessionId")]
        ∧ (handleMessage (closeSession reg sid) (some sid) body).sseWrites = []) := by
  have h404 : ∀ (reg : Registry) (sid : String) (body : Option Rpc), lookup reg sid = none →
      (handleMessage reg (some sid) body).trace
        = [Action.sync (SyncResponse.httpError 404 "No SSE session with that sessionId")]
      ∧ (handleMessage reg (some sid) body).sseWrites = [] := by
    intro reg sid body h
    constructor
    · simp [handleMessage, h]
    · simp [handleMessage, h, HandleResult.sseWrites, sseProj]
  refine ⟨?_, h404, lookup_closeSession_self, ?_⟩
  · intro reg body
    simp [handleMessage]
  · intro reg sid body
    exact h404 (closeSession reg sid) sid body (lookup_closeSession_self reg sid)

/-- Witness for C6 at a concrete input: the unknown-session branch on the empty
registry, the missing-session-id branch, and a call after disconnect. -/
theorem c6_witness :
    ((handleMessage ([] : Registry) (some "s1") (some rpcListW)).trace
      = [Action.sync (SyncResponse.httpError 404 "No SSE session with that sessionId")]
    ∧ (handleMessage ([] : Registry) (some "s1") (some rpcListW)).sseWrites = [])
    ∧ (handleMessage regW none (some rpcListW)).trace
      = [Action.sync (SyncResponse.httpError 400 "Missing sessionId in ?sessionId=...")]
    ∧ (handleMessage (closeSession regW "s1") (some "s1") (some rpcListW)).trace
      = [Action.sync (SyncResponse.httpError 404 "No SSE session with that sessionId")] :=
  ⟨c6_session_errors.2.1 [] "s1" (some rpcListW) (by decide),
   c6_session_errors.1 regW (some rpcListW),
   (c6_session_errors.2.2.2 regW "s1" (some rpcListW)).1⟩

/-- C7: `initialize` is idempotent on a session: a second `initialize` call is
not rejected, still writes the capabilities result on the stream with a normal
ack, the `initialized` flag stays true, and applying the initialize state
update twice equals applying it once. -/
theorem c7_init_idempotent (reg : Registry) (sid : String) (st : Nat) (flag : Bool)
    (rpc : Rpc) (hl : lookup reg sid = some { sseRes := some st, initDone := flag })
    (hjr : rpc.jsonrpc = some "2.0") (hm : rpc.method = some "initialize") :
    (handleMessage (handleMessage reg (some sid) (some rpc)).sessions
        (some sid) (some rpc)).sseWrites = [initCapsMsg rpc.id]
    ∧ (handleMessage (handleMessage reg (some sid) (some rpc)).sessions
        (some sid) (some rpc)).syncResponses
      = [SyncResponse.ack rpc.id "Received initialize"]
    ∧ lookup (handleMessage (handleMessage reg (some sid) (some rpc)).sessions
        (some sid) (some rpc)).sessions sid
      = some { sseRes := some st, initDone := true }
    ∧ (handleMessage (handleMessage reg (some sid) (some rpc)).sessions
        (some sid) (some rpc)).sessions
      = (handleMessage reg (some sid) (some rpc)).sessions := by
  have hv : rpcRejected rpc = false := by
    simp [rpcRejected, hjr, hm, methodTruthy]
  have hms : jsStr rpc.method = "initialize" := by
    rw [hm]
    rfl
  have h1 : (handleMessage reg (some sid) (some rpc)).sessions = markInit reg sid := by
    simp [handleMessage, hl, hv, hms, dispatch]
  have h2 : lookup (markInit reg sid) sid = some { sseRes := some st, initDone := true } := by
    rw [lookup_markInit_self, hl]
    rfl
  have h3 : (handleMessage (markInit reg sid) (some sid) (some rpc)).sessions
      = markInit (markInit reg sid) sid := by
    simp [handleMessage, h2, hv, hms, dispatch]
  refine ⟨?_, ?_, ?_, ?_⟩
  · rw [h1]
    simp [handleMessage, h2, hv, hms, dispatch, HandleResult.sseWrites, sseProj]
  · rw [h1]
    simp [handleMessage, h2, hv, hms, dispatch, HandleResult.syncResponses, syncProj]
  · rw [h1, h3, markInit_markInit]
    exact h2
  · rw [h1, h3, markInit_markInit]

/-- Helper for C9: registries that agree modulo flags have related lookups. -/
theorem lookup_stripInit_rel (reg1 reg2 : Registry) (h : stripInit reg1 = stripInit reg2)
    (sid : String) :
    (lookup reg1 sid).map SessionData.sseRes = (lookup reg2 sid).map SessionData.sseRes := by
  induction reg1 generalizing reg2 with
  | nil =>
    cases reg2 with
    | nil => rfl
    | cons q rest2 => simp [stripInit] at h
  | cons p rest ih =>
    cases reg2 with
    | nil => simp [stripInit] at h
    | cons q rest2 =>
      obtain ⟨k1, v1⟩ := p
      obtain ⟨k2, v2⟩ := q
      simp only [stripInit, List.map_cons, List.cons.injEq, Prod.mk.injEq] at h
      obtain ⟨⟨hk, hs⟩, hrest⟩ := h
      subst hk
      by_cases hk2 : k1 = sid
      · simp [lookup, hk2, hs]
      · simp only [lookup, hk2, if_neg hk2]
        exact ih rest2 hrest

/-- Helper for C9: the SSE writes of the dispatch do not depend on the
registry or the session id. -/
theorem dispatch_fst_indep (reg reg' : Registry) (sid sid' : String) (rpc : Rpc)
    (m : String) :
    (dispatch reg sid rpc m).1 = (dispatch reg' sid' rpc m).1 := by
  unfold dispatch
  repeat' split
  all_goals simp_all

/-- Helper for C10: the registry after a call is either unchanged or the
result of marking the addressed session, the latter exactly on a dispatched
`initialize`. -/
theorem handleMessage_sessions_cases (reg : Registry) (sessionId : Option String)
    (body : Option Rpc) :
    (handleMessage reg sessionId body).sessions = reg
    ∨ ∃ sid sd rpc st, sessionId = some sid ∧ lookup reg sid = some sd
        ∧ body = some rpc ∧ rpcRejected rpc = false ∧ sd.sseRes = some st
        ∧ jsStr rpc.method = "initialize"
        ∧ (handleMessage reg sessionId body).sessions = markInit reg sid := by
  cases sessionId with
  | none => exact Or.inl rfl
  | some sid =>
    cases hl : lookup reg sid with
    | none =>
      left
      simp [handleMessage, hl]
    | some sd =>
      cases body with
      | none =>
        left
        simp [handleMessage, hl]
      | some rpc =>
        by_cases hr : rpcRejected rpc = true
        · left
          simp [handleMessage, hl, hr]
        · have hr' : rpcRejected rpc = false := by
            simpa using hr
          cases hs : sd.sseRes with
          | none =>
            left
            simp [handleMessage, hl, hr', hs]
          | some st =>
            have hsess : (handleMessage reg (some sid) (some rpc)).sessions
                = (dispatch reg sid rpc (jsStr rpc.method)).2 := by
              simp [handleMessage, hl, hr', hs]
            rcases dispatch_sessions reg sid rpc (jsStr rpc.method) with hd | ⟨hm, hd⟩
            · left
              rw [hsess, hd]
            · right
              exact ⟨sid, sd, rpc, st, rfl, hl, rfl, hr', hs, hm, by rw [hsess, hd]⟩

/-- C8: for every call against any registry state, the handler's output trace
is the synchronous response followed by the asynchronous SSE writes: no
dispatch path writes to the session's stream before the synchronous response. -/
theorem c8_sync_before_async (reg : Registry) (sessionId : Option String)
    (body : Option Rpc) :
    ∃ (s : SyncResponse) (ws : List SseMessage), (handleMessage reg sessionId body).trace
      = Action.sync s :: ws.map (Action.sse "message") := by
  cases sessionId with
  | none =>
    exact ⟨SyncResponse.httpError 400 "Missing sessionId in ?sessionId=...", [], rfl⟩
  | some sid =>
    cases hl : lookup reg sid with
    | none =>
      refine ⟨SyncResponse.httpError 404 "No SSE session with that sessionId", [], ?_⟩
      simp [handleMessage, hl]
    | some sd =>
      cases body with
      | none =>
        refine ⟨SyncResponse.invalidRequest (idOrNull none) (-32600)
          "Invalid JSON-RPC request", [], ?_⟩
        simp [handleMessage, hl]
      | some rpc =>
        by_cases hr : rpcRejected rpc = true
        · refine ⟨SyncResponse.invalidRequest (idOrNull (some rpc)) (-32600)
            "Invalid JSON-RPC request", [], ?_⟩
          simp [handleMessage, hl, hr]
        · have hr' : rpcRejected rpc = false := by
            simpa using hr
          cases hs : sd.sseRes with
          | none =>
            refine ⟨SyncResponse.ack rpc.id ("Received " ++ jsStr rpc.method), [], ?_⟩
            simp [handleMessage, hl, hr', hs]
          | some st =>
            obtain ⟨ws, hws⟩ := dispatch_all_sse reg sid rpc (jsStr rpc.method)
            refine ⟨SyncResponse.ack rpc.id ("Received " ++ jsStr rpc.method), ws, ?_⟩
            simp [handleMessage, hl, hr', hs, hws]

/-- C9: the `initialized` flag gates nothing: two registries agreeing on
session ids and stream handles but arbitrary on every `initialized` flag
produce identical output traces (synchronous response and asynchronous
writes) for every call. -/
theorem c9_init_flag_gates_nothing (reg1 reg2 : Registry)
    (h : stripInit reg1 = stripInit reg2) (sessionId : Option String)
    (body : Option Rpc) :
    (handleMessage reg1 sessionId body).trace = (handleMessage reg2 sessionId body).trace := by
  cases sessionId with
  | none => rfl
  | some sid =>
    have hrel := lookup_stripInit_rel reg1 reg2 h sid
    cases hl1 : lookup reg1 sid with
    | none =>
      cases hl2 : lookup reg2 sid with
      | none => simp [handleMessage, hl1, hl2]
      | some sd2 =>
        rw [hl1, hl2] at hrel
        exact absurd hrel (by simp)
    | some sd1 =>
      cases hl2 : lookup reg2 sid with
      | none =>
        rw [hl1, hl2] at hrel
        exact absurd hrel (by simp)
      | some sd2 =>
        rw [hl1, hl2] at hrel
        simp only [Option.map_some', Option.some.injEq] at hrel
        cases body with
        | none => simp [handleMessage, hl1, hl2]
        | some rpc =>
          by_cases hr : rpcRejected rpc = true
          · simp [handleMessage, hl1, hl2, hr]
          · have hr' : rpcRejected rpc = false := by
              simpa using hr
            cases hs1 : sd1.sseRes with
            | none =>
              have hs2 : sd2.sseRes = none := by
                rw [← hrel]
                exact hs1
              simp [handleMessage, hl1, hl2, hr', hs1, hs2]
            | some st =>
              have hs2 : sd2.sseRes = some st := by
                rw [← hrel]
                exact hs1
              simp only [handleMessage, hl1, hl2, hr', hs1, hs2, Bool.false_eq_true,
                if_false]
              exact congrArg (fun l => _ :: l)
                (dispatch_fst_indep reg1 reg2 sid sid rpc (jsStr rpc.method))

/-- Witness for C9 at a concrete input: the same call against the same
session with the flag down and up produces the same trace. -/
theorem c9_witness :
    (handleMessage regW (some "s1") (some rpcListW)).trace
      = (handleMessage regW2 (some "s1") (some rpcListW)).trace :=
  c9_init_flag_gates_nothing regW regW2 (by decide) (some "s1") (some rpcListW)

/-- C10: frame property of call handling: the set of registered session ids
and every session's stream handle are unchanged; a session not addressed by
the call keeps its entry verbatim; any flag change can only raise the
addressed session's flag; a dispatched `initialize` raises it; and no call
whose method is not `initialize` (or with no body) changes the registry at
all. -/
theorem c10_frame (reg : Registry) (sessionId : Option String) (body : Option Rpc) :
    stripInit (handleMessage reg sessionId body).sessions = stripInit reg
    ∧ (∀ k sd, lookup reg k = some sd → sessionId ≠ some k →
        lookup (handleMessage reg sessionId body).sessions k = some sd)
    ∧ (∀ k sd, lookup reg k = some sd →
        lookup (handleMessage reg sessionId body).sessions k = some sd
        ∨ lookup (handleMessage reg sessionId body).sessions k
            = some { sd with initDone := true })
    ∧ (∀ k sd rpc, sessionId = some k → body = some rpc → lookup reg k = some sd →
        sd.sseRes.isSome = true → rpcRejected rpc = false →
        jsStr rpc.method = "initialize" →
        lookup (handleMessage reg sessionId body).sessions k
          = some { sd with initDone := true })
    ∧ (∀ rpc, body = some rpc → jsStr rpc.method ≠ "initialize" →
        (handleMessage reg sessionId body).sessions = reg)
    ∧ (body = none → (handleMessage reg sessionId body).sessions = reg) := by
  rcases handleMessage_sessions_cases reg sessionId body with hcase | hcase
  · refine ⟨by rw [hcase], ?_, ?_, ?_, ?_, ?_⟩
    · intro k sd hk _
      rw [hcase]
      exact hk
    · intro k sd hk
      left
      rw [hcase]
      exact hk
    · intro k sd rpc hsid hbody hk hstream hval hmeth
      obtain ⟨st, hst⟩ := Option.isSome_iff_exists.mp hstream
      subst hsid
      subst hbody
      have : (handleMessage reg (some k) (some rpc)).sessions
          = (dispatch reg k rpc (jsStr rpc.method)).2 := by
        simp [handleMessage, hk, hval, hst]
      rw [this, hmeth]
      have hd : (dispatch reg k rpc "initialize").2 = markInit reg k := by
        simp [dispatch]
      rw [hd, lookup_markInit_self, hk]
      rfl
    · intro rpc hbody hmeth
      exact hcase
    · intro _
      exact hcase
  · obtain ⟨sid, sd, rpc, st, hsid, hl, hbody, hval, hst, hmeth, hsess⟩ := hcase
    refine ⟨?_, ?_, ?_, ?_, ?_, ?_⟩
    · rw [hsess, stripInit_markInit]
    · intro k sd' hk hne
      rw [hsess]
      rw [lookup_markInit_ne]
      · exact hk
      · intro hkk
        exact hne (by rw [hsid, hkk])
    · intro k sd' hk
      by_cases hkk : k = sid
      · right
        subst hkk
        rw [hsess, lookup_markInit_self, hk]
        rfl
      · left
        rw [hsess, lookup_markInit_ne reg sid k hkk]
        exact hk
    · intro k sd' rpc' hsid' hbody' hk _ _ _
      have hkk : k = sid := by
        rw [hsid] at hsid'
        exact (Option.some.inj hsid').symm
      subst hkk
      rw [hsess, lookup_markInit_self, hk]
      rfl
    · intro rpc' hbody' hmeth'
      rw [hbody] at hbody'
      cases hbody'
      exact absurd hmeth hmeth'
    · intro hnone
      rw [hbody] at hnone
      cases hnone

/-- Witness for C10 at a concrete input: a dispatched `initialize` raises the
addressed session's flag. -/
theorem c10_witness :
    lookup (handleMessage regW (some "s1") (some rpcInitW)).sessions "s1"
      = some { sseRes := some 0, initDone := true } :=
  (c10_frame regW (some "s1") (some rpcInitW)).2.2.2.1 "s1"
    { sseRes := some 0, initDone := false } rpcInitW rfl rfl (by decide) rfl
    (by decide) rfl

/-- Witness for C7 at a concrete input: two `initialize` calls on one session. -/
theorem c7_witness :
    (handleMessage (handleMessage regW (some "s1") (some rpcInitW)).sessions
        (some "s1") (some rpcInitW)).sseWrites = [initCapsMsg rpcInitW.id]
    ∧ lookup (handleMessage (handleMessage regW (some "s1") (some rpcInitW)).sessions
        (some "s1") (some rpcInitW)).sessions "s1"
      = some { sseRes := some 0, initDone := true } := by
  have h := c7_init_idempotent regW "s1" 0 false rpcInitW (by decide) rfl rfl
  exact ⟨h.1, h.2.2.1⟩

end McpServer
